import Mathlib

/-!
Shallow embedding of the dashboard backend (Go, packages `store` and `api`)
and proofs about it.

Modelling conventions:
* Go `float64` fields are modelled as `ℚ` (no arithmetic in the program depends
  on floating-point rounding for the properties below: every produced value is
  the exact result of the written formula, then clamped).
* `time.Time` is modelled as a rational timestamp; the Go zero time is `0`,
  and `time.Duration(k) * time.Minute` is `k * minute` with `minute = 60`.
* The `metrics_snapshot` table is a `List Metrics` in insertion order; the SQL
  `ORDER BY created_at DESC` is an explicit stable sort of that list.
* Fallible store calls take an `Option String` describing a possible I/O
  failure of the underlying database driver and return `Except String _`,
  mirroring Go's `(value, error)` convention.
* Go strings that are compared after `strings.ToLower` are modelled as lists
  of code points (`List ℕ`); the recognized metric keys are ASCII, so ASCII
  case folding is the relevant fragment of `strings.ToLower`.
-/

namespace Dashboard

/-- Go struct `store.Metrics` (store.go): one metric snapshot row. -/
structure Metrics where
  revenue   : ℚ
  growth    : ℚ
  sentiment : ℚ
  backlog   : ℤ
  createdAt : ℚ
deriving DecidableEq, Repr

/-- Go struct `store.Insight` (store.go): one insight row. -/
structure Insight where
  id        : ℤ
  title     : String
  message   : String
  source    : String
  createdAt : ℚ
deriving DecidableEq, Repr

/-- The Go zero value `store.Metrics{}`: all fields zero, zero time. -/
def emptyMetrics : Metrics :=
  { revenue := 0, growth := 0, sentiment := 0, backlog := 0, createdAt := 0 }

/-- One minute, in the timestamp unit (seconds). -/
def minute : ℚ := 60

/-- Function `clamp(value, min, max)` (api.go): clip `value` into `[lo, hi]`. -/
def clamp (value lo hi : ℚ) : ℚ :=
  if value < lo then lo
  else if value > hi then hi
  else value

/-- Go's `int(x)` conversion on a `float64`: truncation toward zero. -/
def goInt (x : ℚ) : ℤ :=
  if x < 0 then ⌈x⌉ else ⌊x⌋

/-- Function `defaultMetrics()` (api.go): the fixed baseline snapshot, stamped `now`. -/
def defaultMetrics (now : ℚ) : Metrics :=
  { revenue := 4.82
    growth := 18.6
    sentiment := 72
    backlog := 128
    createdAt := now }

/-- Function `simulateMetrics(rng, previous)` (api.go): bounded random walk.
`u1, u2, u3, u4` are the four successive `rng.Float64()` draws, in the order
the struct literal evaluates them (revenue, growth, sentiment, backlog);
`now` is `time.Now()`. -/
def simulateMetrics (u1 u2 u3 u4 : ℚ) (previous : Metrics) (now : ℚ) : Metrics :=
  { revenue := clamp (previous.revenue + (u1 - 0.35) * 0.12) 3.9 6.2
    growth := clamp (previous.growth + (u2 - 0.45) * 1.6) 10 28
    sentiment := clamp (previous.sentiment + (u3 - 0.5) * 2.4) 58 90
    backlog := goInt (clamp ((previous.backlog : ℚ) + (u4 - 0.4) * 6) 95 180)
    createdAt := now }

/-- The §3 per-field invariant ranges. -/
def inRanges (m : Metrics) : Prop :=
  (3.9 ≤ m.revenue ∧ m.revenue ≤ 6.2) ∧
  (10 ≤ m.growth ∧ m.growth ≤ 28) ∧
  (58 ≤ m.sentiment ∧ m.sentiment ≤ 90) ∧
  (95 ≤ m.backlog ∧ m.backlog ≤ 180)

/-! ### Insight synthesizer (api.go) -/

/-- ASCII fragment of Go `strings.ToLower`, on one code point. -/
def asciiToLower (c : ℕ) : ℕ :=
  if 65 ≤ c ∧ c ≤ 90 then c + 32 else c

/-- Case folding of a key, as a list of code points. -/
def lowerKey (s : List ℕ) : List ℕ := s.map asciiToLower

/-- Code points of `"revenue"`. -/
def keyRevenue : List ℕ := [114, 101, 118, 101, 110, 117, 101]

/-- Code points of `"growth"`. -/
def keyGrowth : List ℕ := [103, 114, 111, 119, 116, 104]

/-- Code points of `"sentiment"`. -/
def keySentiment : List ℕ := [115, 101, 110, 116, 105, 109, 101, 110, 116]

/-- Code points of `"backlog"`. -/
def keyBacklog : List ℕ := [98, 97, 99, 107, 108, 111, 103]

/-- Function `buildMetricInsight(key, metrics)` (api.go): targeted synthesizer.
The Go function takes the snapshot but all five branches return fixed
strings; the parameter is kept to mirror the signature. -/
def buildMetricInsight (key : List ℕ) (metrics : Metrics) : String × String :=
  if lowerKey key = keyRevenue then
    ("全球营收聚焦", "营收增速维持在当前高位，建议核心区域保持高端定价，拉美用组合包稳住份额。")
  else if lowerKey key = keyGrowth then
    ("用户增长聚焦", "用户增长保持稳定，建议将获客预算倾向亚太，并在成熟市场加倍投入推荐裂变。")
  else if lowerKey key = keySentiment then
    ("情绪指数聚焦", "情绪指数稳定向好，EMEA 需提前布局公关以冲刺 75% 正面阈值。")
  else if lowerKey key = keyBacklog then
    ("未交付订单聚焦", "订单积压仍需关注，建议提升物流吞吐，降低高端 SKU 流失风险。")
  else
    ("战略提示", "请在关键指标上保持资源集中度。")

/-- Function `buildAutoInsight(metrics)` (api.go): autonomous synthesizer. -/
def buildAutoInsight (metrics : Metrics) : String :=
  let strength :=
    if metrics.sentiment > 74 then "强劲"
    else if metrics.sentiment < 66 then "脆弱"
    else "稳定"
  let revenuePulse :=
    if metrics.revenue > 5.1 then "加速"
    else if metrics.revenue < 4.6 then "走弱"
    else "平稳"
  let backlogRisk :=
    if metrics.backlog > 150 then "上行"
    else if metrics.backlog < 120 then "较低"
    else "可控"
  "需求动能" ++ revenuePulse ++ "，舆情" ++ strength ++ "。积压风险" ++ backlogRisk ++
    "，建议将履约能力倾向高毛利区域。"

/-! ### Spec-side simulator definition, for the refinement claim C4 -/

/-- Modelled from the spec (§4.1): one field step,
`previous.field + (rng.uniform(0,1) - bias) * amplitude` clamped to the
field's invariant range `[lo, hi]`. -/
def specPerturbClamp (prev u bias amplitude lo hi : ℚ) : ℚ :=
  max lo (min (prev + (u - bias) * amplitude) hi)

/-- Modelled from the spec (§4.1 table): the Simulator per the spec's words,
with the per-field bias/amplitude/range constants; backlog converted to
integer. -/
def simulateMetricsSpec (u1 u2 u3 u4 : ℚ) (previous : Metrics) (now : ℚ) : Metrics :=
  { revenue := specPerturbClamp previous.revenue u1 0.35 0.12 3.9 6.2
    growth := specPerturbClamp previous.growth u2 0.45 1.6 10 28
    sentiment := specPerturbClamp previous.sentiment u3 0.5 2.4 58 90
    backlog := goInt (specPerturbClamp (previous.backlog : ℚ) u4 0.4 6 95 180)
    createdAt := now }

/-! ### Store operations (store.go) -/

/-- The `ORDER BY created_at DESC` comparison on snapshot rows. -/
def byCreatedDesc (a b : Metrics) : Prop := b.createdAt ≤ a.createdAt

instance : DecidableRel byCreatedDesc :=
  fun a b => inferInstanceAs (Decidable (b.createdAt ≤ a.createdAt))

instance : IsTotal Metrics byCreatedDesc :=
  ⟨fun a b => le_total b.createdAt a.createdAt⟩

instance : IsTrans Metrics byCreatedDesc :=
  ⟨fun _ _ _ h1 h2 => le_trans h2 h1⟩

/-- The rows of `metrics_snapshot` as `ORDER BY created_at DESC` delivers
them (most recent first). -/
def sortByCreatedDesc (rows : List Metrics) : List Metrics :=
  List.insertionSort byCreatedDesc rows

/-- The row `... ORDER BY created_at DESC LIMIT 1` scans, if any. -/
def latestRow (rows : List Metrics) : Option Metrics :=
  (sortByCreatedDesc rows).head?

/-- Method `Store.LatestMetrics` (store.go): `sql.ErrNoRows` is mapped to the zero
`Metrics{}` with a `nil` error; any other driver error is returned. -/
def LatestMetrics (rows : List Metrics) (ioErr : Option String) :
    Except String Metrics :=
  match ioErr with
  | some e => .error e
  | none => .ok ((latestRow rows).getD emptyMetrics)

/-- Whether a store call reported a failure (a non-`nil` Go error). -/
def isStoreError : Except String Metrics → Bool
  | .error _ => true
  | .ok _ => false

/-- Method `Store.InsertMetricsAt` (store.go): append one snapshot row. -/
def InsertMetricsAt (rows : List Metrics) (metrics : Metrics)
    (ioErr : Option String) : Except String (List Metrics) :=
  match ioErr with
  | some e => .error e
  | none => .ok (rows ++ [metrics])

/-- Method `Store.InsertMetrics` (store.go): delegates to `InsertMetricsAt`. -/
def InsertMetrics (rows : List Metrics) (metrics : Metrics)
    (ioErr : Option String) : Except String (List Metrics) :=
  InsertMetricsAt rows metrics ioErr

/-- Method `Store.Trend` (store.go): most recent `limit` rows in descending order,
then reversed in place to ascending. -/
def Trend (rows : List Metrics) (ioErr : Option String) (limit : ℕ) :
    Except String (List Metrics) :=
  match ioErr with
  | some e => .error e
  | none => .ok (((sortByCreatedDesc rows).take limit).reverse)

/-- The `ORDER BY created_at DESC` comparison on insight rows. -/
def insightByCreatedDesc (a b : Insight) : Prop := b.createdAt ≤ a.createdAt

instance : DecidableRel insightByCreatedDesc :=
  fun a b => inferInstanceAs (Decidable (b.createdAt ≤ a.createdAt))

/-- Method `Store.LatestInsights` (store.go): most recent `limit` insight rows. -/
def LatestInsights (insights : List Insight) (ioErr : Option String)
    (limit : ℕ) : Except String (List Insight) :=
  match ioErr with
  | some e => .error e
  | none => .ok ((List.insertionSort insightByCreatedDesc insights).take limit)

/-- Method `Store.InsertInsight` (store.go): insert, then return the insight with
the auto-increment id and `CreatedAt = time.Now()` populated. -/
def InsertInsight (insights : List Insight) (insight : Insight)
    (ioErr : Option String) (now : ℚ) : Except String (Insight × List Insight) :=
  match ioErr with
  | some e => .error e
  | none =>
    let inserted := { insight with id := (insights.length : ℤ) + 1, createdAt := now }
    .ok (inserted, insights ++ [inserted])

/-! ### Query-string parsing (api.go) -/

/-- One decimal digit of `strconv.Atoi`, as a code point. -/
def digitVal (c : ℕ) : Option ℕ :=
  if 48 ≤ c ∧ c ≤ 57 then some (c - 48) else none

/-- Digit run of `strconv.Atoi`: fails on any non-digit. -/
def parseDigits : List ℕ → ℕ → Option ℕ
  | [], acc => some acc
  | c :: cs, acc =>
    match digitVal c with
    | some d => parseDigits cs (10 * acc + d)
    | none => none

/-- Function `strconv.Atoi` (Go standard library, as used by `parseQueryInt`):
an optional sign followed by at least one decimal digit; anything else is
an error. The claims never reach the 64-bit range limit, so the value is
modelled as an unbounded integer. -/
def atoiGo (s : List ℕ) : Option ℤ :=
  match s with
  | [] => none
  | 43 :: rest =>
    match rest with
    | [] => none
    | _ => (parseDigits rest 0).map fun n => (n : ℤ)
  | 45 :: rest =>
    match rest with
    | [] => none
    | _ => (parseDigits rest 0).map fun n => -(n : ℤ)
  | _ => (parseDigits s 0).map fun n => (n : ℤ)

/-- Function `parseQueryInt(r, key, fallback)` (api.go). A missing query parameter is
the empty string, exactly as `r.URL.Query().Get` reports it. -/
def parseQueryInt (value : List ℕ) (fallback : ℤ) : ℤ :=
  if value = [] then fallback
  else
    match atoiGo value with
    | none => fallback
    | some parsed => parsed

/-- The limit `handleLatestInsights` (api.go) passes to the store:
`parseQueryInt(r, "limit", 6)` followed by `if limit < 1 { limit = 6 }`. -/
def insightsQueryLimit (limitParam : List ℕ) : ℤ :=
  let limit := parseQueryInt limitParam 6
  if limit < 1 then 6 else limit

/-- The window `handleTrend` (api.go) passes to the store:
`parseQueryInt(r, "window", 12)` followed by `if window < 3 { window = 3 }`. -/
def trendQueryWindow (windowParam : List ℕ) : ℤ :=
  let window := parseQueryInt windowParam 12
  if window < 3 then 3 else window

/-! ### HTTP layer (api.go) -/

/-- A JSON body: either a `{data: ...}`-style payload or `{error: msg}`. -/
inductive Payload (α : Type) where
  | data (value : α)
  | errorMsg (msg : String)
deriving DecidableEq, Repr

/-- One HTTP response: status code plus JSON body. -/
structure HttpResponse (α : Type) where
  status : ℕ
  payload : Payload α
deriving DecidableEq, Repr

/-- Go struct `api.MetricsResponse`. -/
structure MetricsResponse where
  data : Metrics
  timestamp : ℚ
deriving DecidableEq, Repr

/-- Go struct `api.TrendPoint`. -/
structure TrendPoint where
  timestamp : ℚ
  revenue : ℚ
deriving DecidableEq, Repr

/-- The `if metrics.CreatedAt.IsZero() { metrics = defaultMetrics() }`
substitution shared by every consumer of `LatestMetrics`. -/
def effectiveMetrics (m : Metrics) (now : ℚ) : Metrics :=
  if m.createdAt = 0 then defaultMetrics now else m

/-- Function `seedTrendMetrics()` (api.go): the synthetic 12-point ramp. -/
def seedTrendMetrics (now : ℚ) : List Metrics :=
  let base := defaultMetrics now
  (List.range 12).map fun (i : ℕ) =>
    let value : ℚ := 55 + (i : ℚ) * 1.8 + ((i : ℚ) / 1.8) * 2.0
    { revenue := value / 10
      growth := base.growth
      sentiment := base.sentiment
      backlog := base.backlog
      createdAt := now + ((i : ℚ) - 12) * minute }

/-- The trend points `handleTrend` derives from a list of snapshots. -/
def toTrendPoints (points : List Metrics) : List TrendPoint :=
  points.map fun p => ⟨p.createdAt, p.revenue⟩

/-- Handler `handleLatestMetrics` (api.go). `ioErr` is a possible failure of the
read, `seedErr` a possible failure of the best-effort seed insert (which is
only logged). Returns the response and the store rows afterwards. -/
def handleLatestMetrics (rows : List Metrics) (ioErr seedErr : Option String)
    (now : ℚ) : HttpResponse MetricsResponse × List Metrics :=
  match LatestMetrics rows ioErr with
  | .error e => (⟨500, .errorMsg e⟩, rows)
  | .ok metrics =>
    if metrics.createdAt = 0 then
      let seeded := defaultMetrics now
      let rows' :=
        match InsertMetricsAt rows seeded seedErr with
        | .error _ => rows
        | .ok updated => updated
      (⟨200, .data ⟨seeded, now⟩⟩, rows')
    else
      (⟨200, .data ⟨metrics, now⟩⟩, rows)

/-- Handler `handleTrend` (api.go). On an empty result the synthetic ramp is
returned and inserted row by row; `seedFailAt = some k` means the insert of
point `k` fails (the loop breaks there, having inserted the first `k`). -/
def handleTrend (rows : List Metrics) (ioErr : Option String)
    (windowParam : List ℕ) (seedFailAt : Option ℕ) (now : ℚ) :
    HttpResponse (List TrendPoint) × List Metrics :=
  match Trend rows ioErr (trendQueryWindow windowParam).toNat with
  | .error e => (⟨500, .errorMsg e⟩, rows)
  | .ok points =>
    let seeded := points.isEmpty
    let points := if seeded then seedTrendMetrics now else points
    let rows' :=
      if seeded then
        match seedFailAt with
        | none => rows ++ points
        | some k => rows ++ points.take k
      else rows
    (⟨200, .data (toTrendPoints points)⟩, rows')

/-- The default insight `handleLatestInsights` seeds on an empty store. -/
def seedInsightRow : Insight :=
  { id := 0
    title := "高管简报"
    message := "全球表现高于计划，继续将市场投入对齐高动能区域。"
    source := "auto"
    createdAt := 0 }

/-- Handler `handleLatestInsights` (api.go). -/
def handleLatestInsights (insights : List Insight) (ioErr seedErr : Option String)
    (limitParam : List ℕ) (now : ℚ) : HttpResponse (List Insight) × List Insight :=
  match LatestInsights insights ioErr (insightsQueryLimit limitParam).toNat with
  | .error e => (⟨500, .errorMsg e⟩, insights)
  | .ok items =>
    if items.isEmpty then
      match InsertInsight insights seedInsightRow seedErr now with
      | .error _ =>
        (⟨200, .data [{ seedInsightRow with createdAt := now }]⟩, insights)
      | .ok (seed, insights') => (⟨200, .data [seed]⟩, insights')
    else
      (⟨200, .data items⟩, insights)

/-- Handler `handleCreateInsight` (api.go). `body = none` models a request body the
JSON decoder rejects; `some key` is the decoded `metricKey`. -/
def handleCreateInsight (rows : List Metrics) (insights : List Insight)
    (body : Option (List ℕ)) (ioErr insErr : Option String) (now : ℚ) :
    HttpResponse Insight × List Insight :=
  match body with
  | none => (⟨400, .errorMsg "invalid body"⟩, insights)
  | some metricKey =>
    match LatestMetrics rows ioErr with
    | .error e => (⟨500, .errorMsg e⟩, insights)
    | .ok metrics =>
      let metrics := effectiveMetrics metrics now
      let pair := buildMetricInsight metricKey metrics
      match InsertInsight insights
          { id := 0, title := pair.1, message := pair.2, source := "metric",
            createdAt := 0 } insErr now with
      | .error e => (⟨500, .errorMsg e⟩, insights)
      | .ok (insight, insights') => (⟨200, .data insight⟩, insights')

/-- Handler `handleSimulateMetrics` (api.go). -/
def handleSimulateMetrics (rows : List Metrics) (ioErr insErr : Option String)
    (u1 u2 u3 u4 now : ℚ) : HttpResponse Metrics × List Metrics :=
  match LatestMetrics rows ioErr with
  | .error e => (⟨500, .errorMsg e⟩, rows)
  | .ok metrics =>
    let next := simulateMetrics u1 u2 u3 u4 (effectiveMetrics metrics now) now
    match InsertMetrics rows next insErr with
    | .error e => (⟨500, .errorMsg e⟩, rows)
    | .ok rows' => (⟨200, .data next⟩, rows')

/-- One firing of the metrics ticker in `StartSimulation` (api.go): read
errors skip the tick, insert errors are only logged. -/
def metricsTick (rows : List Metrics) (ioErr insErr : Option String)
    (u1 u2 u3 u4 now : ℚ) : List Metrics :=
  match LatestMetrics rows ioErr with
  | .error _ => rows
  | .ok metrics =>
    let next := simulateMetrics u1 u2 u3 u4 (effectiveMetrics metrics now) now
    match InsertMetrics rows next insErr with
    | .error _ => rows
    | .ok rows' => rows'

/-- One firing of the insight ticker in `StartSimulation` (api.go). -/
def insightsTick (rows : List Metrics) (insights : List Insight)
    (ioErr insErr : Option String) (now : ℚ) : List Insight :=
  match LatestMetrics rows ioErr with
  | .error _ => insights
  | .ok metrics =>
    let message := buildAutoInsight (effectiveMetrics metrics now)
    match InsertInsight insights
        { id := 0, title := "AI 战略顾问", message := message, source := "auto",
          createdAt := 0 } insErr now with
    | .error _ => insights
    | .ok (_, insights') => insights'

/-! ## Helper lemmas -/

theorem clamp_le (value lo hi : ℚ) (h : lo ≤ hi) : clamp value lo hi ≤ hi := by
  unfold clamp
  split_ifs <;> linarith

theorem le_clamp (value lo hi : ℚ) (h : lo ≤ hi) : lo ≤ clamp value lo hi := by
  unfold clamp
  split_ifs <;> linarith

theorem goInt_bounds {x : ℚ} {lo hi : ℤ} (h0 : 0 ≤ lo) (hlo : (lo : ℚ) ≤ x)
    (hhi : x ≤ (hi : ℚ)) : lo ≤ goInt x ∧ goInt x ≤ hi := by
  have hx : ¬ x < 0 := by
    push_neg
    calc (0 : ℚ) ≤ (lo : ℚ) := by exact_mod_cast h0
    _ ≤ x := hlo
  unfold goInt
  rw [if_neg hx]
  constructor
  · exact Int.le_floor.mpr hlo
  · have h := (Int.floor_le x).trans hhi
    exact_mod_cast h

theorem simulate_inRanges (u1 u2 u3 u4 : ℚ) (previous : Metrics) (now : ℚ) :
    inRanges (simulateMetrics u1 u2 u3 u4 previous now) := by
  refine ⟨⟨?_, ?_⟩, ⟨?_, ?_⟩, ⟨?_, ?_⟩, ?_⟩
  · exact le_clamp _ _ _ (by norm_num)
  · exact clamp_le _ _ _ (by norm_num)
  · exact le_clamp _ _ _ (by norm_num)
  · exact clamp_le _ _ _ (by norm_num)
  · exact le_clamp _ _ _ (by norm_num)
  · exact clamp_le _ _ _ (by norm_num)
  · have hlo : ((95 : ℤ) : ℚ) ≤ clamp ((previous.backlog : ℚ) + (u4 - 0.4) * 6) 95 180 := by
      have := le_clamp ((previous.backlog : ℚ) + (u4 - 0.4) * 6) 95 180 (by norm_num)
      push_cast
      linarith
    have hhi : clamp ((previous.backlog : ℚ) + (u4 - 0.4) * 6) 95 180 ≤ ((180 : ℤ) : ℚ) := by
      have := clamp_le ((previous.backlog : ℚ) + (u4 - 0.4) * 6) 95 180 (by norm_num)
      push_cast
      linarith
    exact goInt_bounds (by norm_num) hlo hhi

theorem clamp_eq_max_min (value lo hi : ℚ) (h : lo ≤ hi) :
    clamp value lo hi = max lo (min value hi) := by
  unfold clamp
  split_ifs with h1 h2
  · rw [max_eq_left ((min_le_left value hi).trans (le_of_lt h1))]
  · rw [min_eq_right (le_of_lt h2), max_eq_right h]
  · rw [min_eq_left (not_lt.mp h2), max_eq_right (not_lt.mp h1)]

/-! ## Claim theorems -/

/-- C1 -- For every previous snapshot (any field values) and every sequence of
rng draws in `[0,1)`, the snapshot returned by the Metric Simulator
(`simulateMetrics`) satisfies `revenue ∈ [3.9, 6.2]`, `growth ∈ [10, 28]`,
`sentiment ∈ [58, 90]` and `backlog ∈ [95, 180]`. -/
theorem c1_simulator_ranges (previous : Metrics) (now u1 u2 u3 u4 : ℚ)
    (h1 : 0 ≤ u1 ∧ u1 < 1) (h2 : 0 ≤ u2 ∧ u2 < 1)
    (h3 : 0 ≤ u3 ∧ u3 < 1) (h4 : 0 ≤ u4 ∧ u4 < 1) :
    inRanges (simulateMetrics u1 u2 u3 u4 previous now) :=
  simulate_inRanges u1 u2 u3 u4 previous now

/-- C1 witness: the theorem applied at a concrete input. -/
theorem c1_simulator_ranges_witness :
    inRanges (simulateMetrics 0 (1/2) (1/2) (1/2) emptyMetrics 7) :=
  c1_simulator_ranges emptyMetrics 7 0 (1/2) (1/2) (1/2)
    (by norm_num) (by norm_num) (by norm_num) (by norm_num)

/-- C4 -- For every previous snapshot and rng draws `u1..u4`, the Simulator
computes each output field as the previous field plus `(u - bias) * amplitude`
clamped to the field's range, with constants revenue: bias 0.35 amplitude
0.12, growth: bias 0.45 amplitude 1.6, sentiment: bias 0.5 amplitude 2.4,
backlog: bias 0.4 amplitude 6 (backlog converted to integer): the source
simulator coincides with the spec-side definition. -/
theorem c4_simulator_formula (u1 u2 u3 u4 : ℚ) (previous : Metrics) (now : ℚ) :
    simulateMetrics u1 u2 u3 u4 previous now =
      simulateMetricsSpec u1 u2 u3 u4 previous now := by
  unfold simulateMetrics simulateMetricsSpec specPerturbClamp
  simp only [Metrics.mk.injEq]
  refine ⟨?_, ?_, ?_, ?_, trivial⟩ <;> rw [clamp_eq_max_min] <;> norm_num

/-- C2 -- For every run of GET /metrics/latest against an empty store, the
handler responds 200 with the fixed baseline snapshot `revenue=4.82`,
`growth=18.6`, `sentiment=72`, `backlog=128`, regardless of whether the
best-effort persistence of that seed succeeds or fails. -/
theorem c2_latest_metrics_seed_on_empty (now : ℚ) (seedErr : Option String) :
    (handleLatestMetrics [] none seedErr now).1 =
      ⟨200, .data ⟨defaultMetrics now, now⟩⟩ ∧
    (defaultMetrics now).revenue = 4.82 ∧
    (defaultMetrics now).growth = 18.6 ∧
    (defaultMetrics now).sentiment = 72 ∧
    (defaultMetrics now).backlog = 128 := by
  refine ⟨?_, rfl, rfl, rfl, rfl⟩
  cases seedErr <;> rfl

/-- C6 -- `LatestMetrics`: an empty store yields the zero-snapshot absent
marker with no error; an I/O failure yields an error; the two outcomes are
distinct (only the failure is a store error). -/
theorem c6_latest_metrics_absent_vs_failure :
    (LatestMetrics [] none = .ok emptyMetrics ∧ emptyMetrics.createdAt = 0) ∧
    (∀ (rows : List Metrics) (e : String),
      LatestMetrics rows (some e) = .error e) ∧
    isStoreError (LatestMetrics [] none) = false ∧
    (∀ (rows : List Metrics) (e : String),
      isStoreError (LatestMetrics rows (some e)) = true) := by
  exact ⟨⟨rfl, rfl⟩, fun _ _ => rfl, rfl, fun _ _ => rfl⟩

/-- C5 -- The targeted synthesizer returns the same (title, message) for a
key and for any case variant of it (same letters after case folding), and
every key not matching one of the four recognized keys after case-folding
yields the fixed generic fallback; it never fails (it is a total function). -/
theorem c5_targeted_synthesizer (k k' : List ℕ) (m : Metrics) :
    (lowerKey k' = lowerKey k →
      buildMetricInsight k' m = buildMetricInsight k m) ∧
    (lowerKey k ≠ keyRevenue → lowerKey k ≠ keyGrowth →
     lowerKey k ≠ keySentiment → lowerKey k ≠ keyBacklog →
     buildMetricInsight k m = ("战略提示", "请在关键指标上保持资源集中度。")) := by
  constructor
  · intro h
    unfold buildMetricInsight
    rw [h]
  · intro h1 h2 h3 h4
    unfold buildMetricInsight
    rw [if_neg h1, if_neg h2, if_neg h3, if_neg h4]

/-- C5 witness: `"REVENUE"` and `"revenue"` yield identical output, and the
unrecognized key `"x"` yields the generic fallback. -/
theorem c5_targeted_synthesizer_witness :
    (buildMetricInsight [82, 69, 86, 69, 78, 85, 69] emptyMetrics =
      buildMetricInsight keyRevenue emptyMetrics) ∧
    (buildMetricInsight [120] emptyMetrics =
      ("战略提示", "请在关键指标上保持资源集中度。")) :=
  ⟨(c5_targeted_synthesizer keyRevenue [82, 69, 86, 69, 78, 85, 69]
      emptyMetrics).1 (by decide),
   (c5_targeted_synthesizer [120] [120] emptyMetrics).2
      (by decide) (by decide) (by decide) (by decide)⟩

/-- C7 counterexample -- the claim says a requested limit below 1 is raised
to the floor 1; on the request `limit=0` (code point 48) the code instead
uses 6, not 1. -/
theorem c7_insights_limit_counterexample :
    insightsQueryLimit [48] = 6 ∧ (insightsQueryLimit [48] == 1) = false := by
  decide

/-- C7 (amended) -- the limit used by GET /insights/latest is the requested
`N` when `N ≥ 1`, and the default 6 when the limit parameter is missing or
unparseable, or when the requested `N` is below 1. -/
theorem c7_insights_limit (limitParam : List ℕ) :
    (∀ n : ℤ, atoiGo limitParam = some n → 1 ≤ n →
      insightsQueryLimit limitParam = n) ∧
    (atoiGo limitParam = none → insightsQueryLimit limitParam = 6) ∧
    (∀ n : ℤ, atoiGo limitParam = some n → n < 1 →
      insightsQueryLimit limitParam = 6) := by
  refine ⟨?_, ?_, ?_⟩
  · intro n hsome hge
    have hne : limitParam ≠ [] := by
      intro h
      rw [h] at hsome
      simp [atoiGo] at hsome
    have hp : parseQueryInt limitParam 6 = n := by
      simp [parseQueryInt, hne, hsome]
    unfold insightsQueryLimit
    rw [hp, if_neg (by omega)]
  · intro hnone
    by_cases hne : limitParam = []
    · simp [insightsQueryLimit, parseQueryInt, hne]
    · have hp : parseQueryInt limitParam 6 = 6 := by
        simp [parseQueryInt, hne, hnone]
      unfold insightsQueryLimit
      rw [hp]
      norm_num
  · intro n hsome hlt
    have hne : limitParam ≠ [] := by
      intro h
      rw [h] at hsome
      simp [atoiGo] at hsome
    have hp : parseQueryInt limitParam 6 = n := by
      simp [parseQueryInt, hne, hsome]
    unfold insightsQueryLimit
    rw [hp, if_pos hlt]

/-- C7 witness: the amended behavior at `limit=5`, a missing parameter, and
`limit=0`. -/
theorem c7_insights_limit_witness :
    insightsQueryLimit [53] = 5 ∧ insightsQueryLimit [] = 6 ∧
    insightsQueryLimit [48] = 6 :=
  ⟨(c7_insights_limit [53]).1 5 (by decide) (by decide),
   (c7_insights_limit []).2.1 (by decide),
   (c7_insights_limit [48]).2.2 0 (by decide) (by decide)⟩

/-- C3 -- For every store state and every (non-negative) limit, `Trend`
returns exactly `min limit available` points in non-decreasing `createdAt`
order, obtained by taking the most recent `limit` rows in descending order
and reversing them. -/
theorem c3_trend_count_and_order (rows : List Metrics) (limit : ℕ) :
    Trend rows none limit =
      .ok (((sortByCreatedDesc rows).take limit).reverse) ∧
    (((sortByCreatedDesc rows).take limit).reverse).length =
      min limit rows.length ∧
    (((sortByCreatedDesc rows).take limit).reverse).Pairwise
      (fun a b => a.createdAt ≤ b.createdAt) := by
  refine ⟨rfl, ?_, ?_⟩
  · simp [sortByCreatedDesc, List.length_insertionSort]
  · have hs : List.Pairwise byCreatedDesc (sortByCreatedDesc rows) :=
      List.sorted_insertionSort byCreatedDesc rows
    have ht : List.Pairwise byCreatedDesc ((sortByCreatedDesc rows).take limit) :=
      List.Pairwise.sublist (List.take_sublist limit _) hs
    rw [List.pairwise_reverse]
    exact ht.imp fun h => h

/-- C8 -- For every GET /metrics/trend request against an empty store, the
response contains exactly 12 points with strictly increasing timestamps,
where point `i` has revenue `(55 + i*1.8 + (i/1.8)*2.0) / 10` and timestamp
`now - (12 - i)` minutes. -/
theorem c8_trend_seed_on_empty (windowParam : List ℕ) (seedFailAt : Option ℕ)
    (now : ℚ) :
    (handleTrend [] none windowParam seedFailAt now).1 =
      ⟨200, .data (toTrendPoints (seedTrendMetrics now))⟩ ∧
    (toTrendPoints (seedTrendMetrics now)).length = 12 ∧
    (∀ i : ℕ, i < 12 →
      (toTrendPoints (seedTrendMetrics now)).getD i ⟨0, 0⟩ =
        ⟨now - ((12 : ℚ) - (i : ℚ)) * minute,
         (55 + (i : ℚ) * 1.8 + ((i : ℚ) / 1.8) * 2.0) / 10⟩) ∧
    (toTrendPoints (seedTrendMetrics now)).Pairwise
      (fun a b => a.timestamp < b.timestamp) := by
  have htrend : Trend [] none (trendQueryWindow windowParam).toNat = .ok [] := by
    simp [Trend, sortByCreatedDesc, List.insertionSort]
  refine ⟨?_, ?_, ?_, ?_⟩
  · cases seedFailAt <;> simp [handleTrend, htrend]
  · simp only [toTrendPoints, seedTrendMetrics, List.length_map,
      List.length_range]
  · intro i hi
    have hlen : i < (toTrendPoints (seedTrendMetrics now)).length := by
      simpa only [toTrendPoints, seedTrendMetrics, List.length_map,
        List.length_range] using hi
    rw [List.getD_eq_getElem _ _ hlen]
    simp only [toTrendPoints, seedTrendMetrics, List.getElem_map,
      List.getElem_range, TrendPoint.mk.injEq]
    exact ⟨by ring, trivial⟩
  · unfold toTrendPoints seedTrendMetrics
    rw [List.pairwise_map, List.pairwise_map]
    refine List.Pairwise.imp ?_ (List.pairwise_lt_range 12)
    intro i j hij
    have hij' : (i : ℚ) < (j : ℚ) := by exact_mod_cast hij
    show now + ((i : ℚ) - 12) * minute < now + ((j : ℚ) - 12) * minute
    simp only [minute]
    nlinarith

/-- C8 witness: the theorem applied at a concrete input (point 0). -/
theorem c8_trend_seed_on_empty_witness :
    (toTrendPoints (seedTrendMetrics 720)).getD 0 ⟨0, 0⟩ =
      ⟨720 - ((12 : ℚ) - ((0 : ℕ) : ℚ)) * minute,
       (55 + ((0 : ℕ) : ℚ) * 1.8 + (((0 : ℕ) : ℚ) / 1.8) * 2.0) / 10⟩ :=
  (c8_trend_seed_on_empty [] none 720).2.2.1 0 (by decide)

/-- C9 -- For every store containing at least one snapshot (with latest row
`m`), a successful POST /metrics/simulate returns a new snapshot whose field
values satisfy the §3 ranges and whose `createdAt` is strictly after the
`createdAt` of the previously latest snapshot, and that new snapshot is
persisted. -/
theorem c9_simulate_advances (rows : List Metrics) (m : Metrics)
    (u1 u2 u3 u4 now : ℚ) (hlatest : latestRow rows = some m)
    (hnow : m.createdAt < now) :
    handleSimulateMetrics rows none none u1 u2 u3 u4 now =
      (⟨200, .data (simulateMetrics u1 u2 u3 u4 (effectiveMetrics m now) now)⟩,
       rows ++ [simulateMetrics u1 u2 u3 u4 (effectiveMetrics m now) now]) ∧
    inRanges (simulateMetrics u1 u2 u3 u4 (effectiveMetrics m now) now) ∧
    m.createdAt <
      (simulateMetrics u1 u2 u3 u4 (effectiveMetrics m now) now).createdAt := by
  refine ⟨?_, simulate_inRanges _ _ _ _ _ _, hnow⟩
  unfold handleSimulateMetrics LatestMetrics
  rw [hlatest]
  rfl

/-- C9 witness: the theorem applied at a concrete one-snapshot store. -/
theorem c9_simulate_advances_witness :
    handleSimulateMetrics [emptyMetrics] none none 0 0 0 0 1 =
      (⟨200, .data (simulateMetrics 0 0 0 0 (effectiveMetrics emptyMetrics 1) 1)⟩,
       [emptyMetrics] ++ [simulateMetrics 0 0 0 0 (effectiveMetrics emptyMetrics 1) 1]) ∧
    inRanges (simulateMetrics 0 0 0 0 (effectiveMetrics emptyMetrics 1) 1) ∧
    emptyMetrics.createdAt <
      (simulateMetrics 0 0 0 0 (effectiveMetrics emptyMetrics 1) 1).createdAt :=
  c9_simulate_advances [emptyMetrics] emptyMetrics 0 0 0 0 1 rfl (by simp [emptyMetrics])

/-- C10 -- Absence of stored metrics is encoded solely as a zero
`createdAt`: `LatestMetrics` reports an empty store as the zero snapshot;
the shared consumer test substitutes the baseline exactly on a zero
`createdAt`; and a stored snapshot whose `createdAt` is the zero time — even
though the store itself returns it — is treated by every consumer (the
latest-metrics, create-insight and simulate handlers, and both scheduler
ticks) exactly like an empty store: the caller receives or advances from the
baseline, never that snapshot. -/
theorem c10_zero_created_at_is_absent (r : Metrics) (hr : r.createdAt = 0)
    (insights : List Insight) (key : List ℕ) (seedErr : Option String)
    (u1 u2 u3 u4 now : ℚ) :
    (LatestMetrics [] none = .ok emptyMetrics ∧ emptyMetrics.createdAt = 0) ∧
    effectiveMetrics r now = defaultMetrics now ∧
    (∀ m : Metrics, m.createdAt ≠ 0 → effectiveMetrics m now = m) ∧
    LatestMetrics [r] none = .ok r ∧
    (handleLatestMetrics [r] none seedErr now).1 =
      (handleLatestMetrics [] none seedErr now).1 ∧
    (handleCreateInsight [r] insights (some key) none none now).1 =
      (handleCreateInsight [] insights (some key) none none now).1 ∧
    (handleSimulateMetrics [r] none none u1 u2 u3 u4 now).1 =
      ⟨200, .data (simulateMetrics u1 u2 u3 u4 (defaultMetrics now) now)⟩ ∧
    metricsTick [r] none none u1 u2 u3 u4 now =
      [r] ++ [simulateMetrics u1 u2 u3 u4 (defaultMetrics now) now] ∧
    insightsTick [r] insights none none now =
      insights ++
        [{ id := (insights.length : ℤ) + 1, title := "AI 战略顾问",
           message := buildAutoInsight (defaultMetrics now),
           source := "auto", createdAt := now }] := by
  have heff : effectiveMetrics r now = defaultMetrics now := by
    simp [effectiveMetrics, hr]
  refine ⟨⟨rfl, rfl⟩, heff, ?_, rfl, ?_, ?_, ?_, ?_, ?_⟩
  · intro m hm
    simp [effectiveMetrics, hm]
  · cases seedErr <;>
      simp [handleLatestMetrics, LatestMetrics, latestRow, sortByCreatedDesc,
        List.insertionSort, List.orderedInsert, hr, emptyMetrics,
        InsertMetricsAt]
  · simp [handleCreateInsight, LatestMetrics, latestRow, sortByCreatedDesc,
      List.insertionSort, List.orderedInsert, effectiveMetrics, hr,
      emptyMetrics, InsertInsight]
  · simp [handleSimulateMetrics, LatestMetrics, latestRow, sortByCreatedDesc,
      List.insertionSort, List.orderedInsert, effectiveMetrics, hr,
      InsertMetrics, InsertMetricsAt]
  · simp [metricsTick, LatestMetrics, latestRow, sortByCreatedDesc,
      List.insertionSort, List.orderedInsert, effectiveMetrics, hr,
      InsertMetrics, InsertMetricsAt]
  · simp [insightsTick, LatestMetrics, latestRow, sortByCreatedDesc,
      List.insertionSort, List.orderedInsert, effectiveMetrics, hr,
      InsertInsight]

/-- C10 witness: the theorem applied at a concrete zero-`createdAt` row. -/
theorem c10_zero_created_at_is_absent_witness :
    (LatestMetrics [] none = .ok emptyMetrics ∧ emptyMetrics.createdAt = 0) ∧
    effectiveMetrics emptyMetrics 1 = defaultMetrics 1 ∧
    (∀ m : Metrics, m.createdAt ≠ 0 → effectiveMetrics m 1 = m) ∧
    LatestMetrics [emptyMetrics] none = .ok emptyMetrics ∧
    (handleLatestMetrics [emptyMetrics] none none 1).1 =
      (handleLatestMetrics [] none none 1).1 ∧
    (handleCreateInsight [emptyMetrics] [] (some [120]) none none 1).1 =
      (handleCreateInsight [] [] (some [120]) none none 1).1 ∧
    (handleSimulateMetrics [emptyMetrics] none none 0 0 0 0 1).1 =
      ⟨200, .data (simulateMetrics 0 0 0 0 (defaultMetrics 1) 1)⟩ ∧
    metricsTick [emptyMetrics] none none 0 0 0 0 1 =
      [emptyMetrics] ++ [simulateMetrics 0 0 0 0 (defaultMetrics 1) 1] ∧
    insightsTick [emptyMetrics] [] none none 1 =
      [] ++
        [{ id := ((List.length ([] : List Insight) : ℤ)) + 1,
           title := "AI 战略顾问",
           message := buildAutoInsight (defaultMetrics 1),
           source := "auto", createdAt := 1 }] :=
  c10_zero_created_at_is_absent emptyMetrics rfl [] [120] none 0 0 0 0 1

end Dashboard
